import Mathlib

/-!
# GoBuddy plan-lifecycle subsystem: a shallow embedding

This file embeds, in Lean 4, the parts of the GoBuddy trip-planning backend
(TypeScript sources) that the frozen claims C1..C10 are about, and settles
each claim against the embedding.

Conventions used throughout:
* Times of day (`HH:MM` strings in the source) are modelled as minutes after
  midnight (`Nat`).  Zero-padded `HH:MM` strings compare lexicographically
  exactly as their minute values compare numerically, and string equality
  coincides with minute equality, so all comparisons in the source transfer.
* Database tables are modelled as Lean lists of row structures; a SQL
  `INSERT` is a cons or an append (membership, which the claims are about,
  is unaffected by which), a `DELETE ... WHERE` is a `filter`, and an
  `UPDATE ... WHERE` is a `map`.
* Opaque UUID tokens are modelled as `Nat`.
-/

namespace GoBuddy

/-! ## Time arithmetic

`addMinutes` appears verbatim in `itinerary-editor.service`,
`itinerary-routing.service` and `replan-apply.service`:
`newHours = floor(total/60) % 24`, `newMins = total % 60`.
As a minute count the result is `total % 1440` (proved below). -/

/-- The addMinutes helper of the source, on minute counts: hours wrap at 24
silently. -/
def addMinutesWrap (t k : Nat) : Nat :=
  ((t + k) / 60 % 24) * 60 + (t + k) % 60

theorem addMinutesWrap_eq_mod (t k : Nat) :
    addMinutesWrap t k = (t + k) % 1440 := by
  unfold addMinutesWrap
  omega

/-! ## Booking state machine (claims C2, C3)

Embeds `BookingService` (src/unnamed/part_010) and
`BookingOrchestratorService.cancelBooking`
(src/src/services/booking/booking-orchestrator.service.ts). -/

namespace Booking

/-- `BookingStatus` from src/src/types/booking.ts. -/
inductive BookingStatus
  | pending
  | confirmed
  | failed
  | canceled
  | refunded
deriving DecidableEq, Repr

/-- Error kinds distinguished by the services: `ValidationError` /
`NotFoundError` (classes extending `AppError`), a plain `Error` (which the
response layer maps to `INTERNAL_ERROR`), and `ExternalServiceError`. -/
inductive ErrKind
  | validation
  | notFound
  | generic
  | external
deriving DecidableEq, Repr

/-- The `validTransitions` table of `BookingService.validateStateTransition`
(part_010 lines 229-250), with `none` standing for the `null` key. -/
def validTransitions : Option BookingStatus → List BookingStatus
  | none => [.pending]
  | some .pending => [.confirmed, .failed]
  | some .confirmed => [.canceled, .refunded]
  | some .failed => [.pending]
  | some .canceled => [.refunded]
  | some .refunded => []

/-- `validateStateTransition`: returns the thrown error kind, if any.  The
source throws `ValidationError` when the target status is not in the
allowed list. -/
def validateStateTransition (fromStatus : Option BookingStatus)
    (toStatus : BookingStatus) : Option ErrKind :=
  if (validTransitions fromStatus).contains toStatus then none
  else some .validation

/-- One booking row together with its `booking_state_history` rows
(`from_status`, `to_status`), oldest first. -/
structure BookingRec where
  status : BookingStatus
  history : List (Option BookingStatus × BookingStatus)
deriving DecidableEq, Repr

/-- `BookingService.updateBookingStatus` restricted to the state it mutates:
validate the transition (throwing `ValidationError` before any write), then
update the row and append one history entry.  Returns the post-state and
the error, if one was thrown. -/
def updateBookingStatusRun (b : BookingRec) (toStatus : BookingStatus) :
    BookingRec × Option ErrKind :=
  match validateStateTransition (some b.status) toStatus with
  | some e => (b, some e)
  | none =>
      ({ status := toStatus,
         history := b.history ++ [(some b.status, toStatus)] }, none)

/-- `BookingOrchestratorService.cancelBooking`: a booking that is not
`confirmed` makes it throw a plain `Error('Can only cancel confirmed
bookings')` before any write; otherwise the provider adapter is called
(its success is the `providerOk` parameter; a failure is wrapped in
`ExternalServiceError`) and the booking transitions to `canceled`. -/
def cancelBookingRun (b : BookingRec) (providerOk : Bool) :
    BookingRec × Option ErrKind :=
  if b.status ≠ BookingStatus.confirmed then (b, some .generic)
  else if providerOk then updateBookingStatusRun b .canceled
  else (b, some .external)

/-- The `bookings`, `booking_state_history` and `booking_idempotency` tables,
plus a fresh-id source standing for `uuidv4()`. -/
structure BookingRow where
  id : Nat
  status : BookingStatus
deriving DecidableEq, Repr

structure HistoryRow where
  booking_id : Nat
  from_status : Option BookingStatus
  to_status : BookingStatus
deriving DecidableEq, Repr

structure BookingStore where
  bookings : List BookingRow
  history : List HistoryRow
  idempotency : List (Nat × Nat)
  nextId : Nat
deriving DecidableEq, Repr

/-- `BookingService.getBookingByIdempotencyKey`: the
`bookings INNER JOIN booking_idempotency ON b.id = bi.booking_id WHERE
bi.idempotency_key = $1` query. -/
def joinLookup (s : BookingStore) (key : Nat) : Option BookingRow :=
  (s.idempotency.find? (fun kv => kv.1 == key)).bind
    (fun kv => s.bookings.find? (fun b => b.id == kv.2))

/-- `booking_idempotency.idempotency_key` is a PRIMARY KEY
(004_booking_schema.sql) with a cascading foreign key to `bookings`; states
reachable through the schema never hold a key whose booking row is gone. -/
def NoDangling (s : BookingStore) : Prop :=
  ∀ kv ∈ s.idempotency, ∃ b ∈ s.bookings, b.id = kv.2

/-- `BookingService.createBooking` (part_010 lines 16-73): look the key up
through the join; if found return that booking unchanged; otherwise insert
a `pending` booking, a `null → pending` history row, and the idempotency
mapping.  `none` models the PRIMARY KEY violation that the insert into
`booking_idempotency` raises when the key is already present (possible only
in a dangling state). -/
def createBooking (s : BookingStore) (key : Nat) :
    Option (BookingStore × Nat) :=
  match joinLookup s key with
  | some b => some (s, b.id)
  | none =>
      if s.idempotency.any (fun kv => kv.1 == key) then none
      else
        let id := s.nextId
        some ({ bookings := ⟨id, .pending⟩ :: s.bookings,
                history := ⟨id, none, .pending⟩ :: s.history,
                idempotency := (key, id) :: s.idempotency,
                nextId := s.nextId + 1 }, id)

end Booking

/-! ## Editor time re-flow (claim C7)

Embeds `ItineraryEditorService.recalculateDayTimes` (src/unnamed/part_012
lines 381-408).  The update loop reads the day's items ordered by `"order"`
and rewrites each row's times in place; the embedding returns the updated
list in the same order. -/

namespace Editor

/-- The fields of an `itinerary_items` row that `recalculateDayTimes`
reads or writes. -/
structure EdItem where
  id : Nat
  start_time : Nat
  end_time : Nat
  duration_minutes : Nat
  is_pinned : Bool
deriving DecidableEq, Repr

/-- The loop body of `recalculateDayTimes`: `currentTime` is the cursor.
A pinned item whose `start_time` differs from the cursor is skipped and the
cursor becomes its `end_time`; every other item is rewritten to
`[cursor, cursor + duration)` (with the wrapping `addMinutes`) and the
cursor becomes the new end. -/
def recalcLoop : Nat → List EdItem → List EdItem
  | _, [] => []
  | currentTime, item :: rest =>
      if item.is_pinned ∧ item.start_time ≠ currentTime then
        item :: recalcLoop item.end_time rest
      else
        let newEnd := addMinutesWrap currentTime item.duration_minutes
        { item with start_time := currentTime, end_time := newEnd }
          :: recalcLoop newEnd rest

/-- `recalculateDayTimes`: cursor starts at the daily window start. -/
def recalculateDayTimes (windowStart : Nat) (items : List EdItem) :
    List EdItem :=
  recalcLoop windowStart items

/-- The re-flow policy exactly as the spec sentence states it (for the
refutation of C7): a pinned item with `start_time ≠ cursor` keeps its times
and sets `cursor = max(cursor, item.end)`. -/
def reflowSpecLoop : Nat → List EdItem → List EdItem
  | _, [] => []
  | cursor, item :: rest =>
      if item.is_pinned ∧ item.start_time ≠ cursor then
        item :: reflowSpecLoop (max cursor item.end_time) rest
      else
        let newEnd := addMinutesWrap cursor item.duration_minutes
        { item with start_time := cursor, end_time := newEnd }
          :: reflowSpecLoop newEnd rest

/-- The policy of the spec sentence amended minimally: in the pinned branch
the cursor becomes `item.end` (not `max(cursor, item.end)`), so the cursor
can move backward past an earlier-ending pinned item. -/
def reflowAmendedLoop : Nat → List EdItem → List EdItem
  | _, [] => []
  | cursor, item :: rest =>
      if item.is_pinned ∧ item.start_time ≠ cursor then
        item :: reflowAmendedLoop item.end_time rest
      else
        let newEnd := addMinutesWrap cursor item.duration_minutes
        { item with start_time := cursor, end_time := newEnd }
          :: reflowAmendedLoop newEnd rest

end Editor

/-! ## Version snapshots under Editor operations (claim C5)

Embeds the version effects of `ItineraryEditorService`
(src/unnamed/part_012): every mutating editor operation (`reorder`,
`togglePin`, `setStartTime`, `addItem`, `removeItem`) ends with
`createVersionSnapshot`, which inserts one `itinerary_versions` row with
`version = itinerary.version` — the *current* `itineraries.version`, which
no editor operation updates.  Generation (`saveItinerary`) sets
`version := prior + 1` and then snapshots.  `itinerary_versions` carries no
uniqueness constraint on `(trip_id, version)` (001_initial_schema.sql), so
duplicate versions are accepted. -/

namespace Versioning

/-- The state the claim is about: the trip's `itineraries.version` and the
versions of its `itinerary_versions` rows in insertion order. -/
structure VersionState where
  version : Nat
  snapshots : List Nat
deriving DecidableEq, Repr

/-- The editor operations of the claim.  All five have the same effect on
`VersionState`: they mutate only `itinerary_items` and then append one
snapshot at the unchanged current version. -/
inductive EditorOp
  | reorder
  | togglePin
  | setStartTime
  | addItem
  | removeItem
deriving DecidableEq, Repr

/-- Effect of one editor operation on the version state. -/
def applyEditorOp (s : VersionState) (_ : EditorOp) : VersionState :=
  { s with snapshots := s.snapshots ++ [s.version] }

/-- Effect of a sequence of editor operations. -/
def applyEditorOps (s : VersionState) (ops : List EditorOp) : VersionState :=
  ops.foldl applyEditorOp s

/-- `ItineraryGeneratorService.generateItinerary` version effect:
`saveItinerary` bumps the itinerary version and `createSnapshot` records it. -/
def applyGenerate (s : VersionState) : VersionState :=
  { version := s.version + 1, snapshots := s.snapshots ++ [s.version + 1] }

/-- A list of snapshot versions is strictly increasing. -/
abbrev strictlyIncreasing (l : List Nat) : Prop := List.Chain' (· < ·) l

/-- A list of snapshot versions is non-decreasing. -/
abbrev nondecreasing (l : List Nat) : Prop := List.Chain' (· ≤ ·) l

/-- Highest snapshot version (0 when there is none). -/
def maxVersion (l : List Nat) : Nat := l.foldr max 0

end Versioning

/-! ## Itinerary generator (claims C4, C6)

Embeds `ItineraryGeneratorService`
(src/src/services/itinerary/itinerary-generator.service.ts):
`generateItinerary`, `generateDays`, `distributePOIs`, `generateDayItems`
and the item effect of `saveItinerary`.  Dates (`YYYY-MM-DD`, parsed to UTC
midnight) are modelled as epoch-day numbers, so
`Math.ceil((end - start) / 86400000)` is exactly `end - start`.  Inside the
generator, times are `Date` values on one day; minute arithmetic there does
not wrap (unlike the editor's `addMinutes`).  Fresh `uuidv4()` item ids are
opaque and modelled as `0`; no claim depends on a generated id. -/

namespace Generator

/-- One weekday entry of `POI.hours` (open/close as minutes, `closed`). -/
structure GenHours where
  openM : Option Nat
  closeM : Option Nat
  closed : Bool
deriving DecidableEq, Repr

/-- The POI fields the generator reads.  `hours` is indexed by weekday
0..6 (Sunday first, as in the source's weekday array); a `none` entry is an
absent `hours[dayOfWeek]`.  `price_range` is `(min, max)`; amounts in the
modelled scenarios are integers. -/
structure GenPOI where
  pid : Nat
  avg_duration_minutes : Nat
  hours : List (Option GenHours)
  price_range : Option (Nat × Nat)
deriving DecidableEq, Repr

/-- The `itinerary_items` fields the generator writes.  `hasLocation`
records whether `location` is set (items built from POIs always have one;
pinned items from a prior itinerary may not).  `cost` is
`cost_estimate.amount`; `routeDur` is
`route_from_previous.duration_minutes`. -/
structure GenItem where
  id : Nat
  day : Nat
  poi_id : Option Nat
  start_time : Nat
  end_time : Nat
  duration_minutes : Nat
  is_pinned : Bool
  ord : Nat
  hasLocation : Bool
  cost : Option Nat
  routeDur : Option Nat
deriving DecidableEq, Repr

/-- Pinned preamble of `generateDayItems`: pinned items are pushed first
and the cursor advances past each pinned end that exceeds it. -/
def pinnedCursor (windowStart : Nat) (pinned : List GenItem) : Nat :=
  pinned.foldl (fun c it => if c < it.end_time then it.end_time else c)
    windowStart

/-- `true` when `hours` exists, has a close time, and that close time is
strictly before `t` (the source's `itemEndTime > closeTime`). -/
def closesBefore (hours : Option GenHours) (t : Nat) : Bool :=
  match hours.bind (·.closeM) with
  | some c => decide (c < t)
  | none => false

/-- The POI loop of `generateDayItems` (lines 207-333): `items` is the
accumulator (pinned items first), `currentTime` the cursor.  A `break`
returns the accumulated items; a `continue` recurses on the remaining
POIs unchanged. -/
def genLoop (dayNum weekday windowEnd : Nat) :
    List GenPOI → List GenItem → Nat → List GenItem
  | [], items, _ => items
  | poi :: rest, items, currentTime =>
      if windowEnd ≤ currentTime then items
      else
        let hours := poi.hours.getD weekday none
        if (hours.map (·.closed)).getD false then
          genLoop dayNum weekday windowEnd rest items currentTime
        else
          let start0 :=
            match hours.bind (·.openM) with
            | some o => if currentTime < o then o else currentTime
            | none => currentTime
          let dur := poi.avg_duration_minutes
          let end0 := start0 + dur
          if closesBefore hours end0 then
            genLoop dayNum weekday windowEnd rest items currentTime
          else if windowEnd < end0 then items
          else
            let hasRoute := (items.getLast?.map (·.hasLocation)).getD false
            let startF := start0 + (if hasRoute then 35 else 15)
            let endF := startF + dur
            if windowEnd < endF ∨ closesBefore hours endF = true then
              genLoop dayNum weekday windowEnd rest items currentTime
            else
              let item : GenItem :=
                { id := 0, day := dayNum, poi_id := some poi.pid,
                  start_time := startF, end_time := endF,
                  duration_minutes := dur, is_pinned := false,
                  ord := items.length, hasLocation := true,
                  cost := poi.price_range.map (fun pr => (pr.1 + pr.2) / 2),
                  routeDur := if hasRoute then some 20 else none }
              genLoop dayNum weekday windowEnd rest (items ++ [item]) endF

/-- `generateDayItems`: place pinned items first, then run the POI loop
with the cursor advanced past the pinned ends. -/
def generateDayItems (dayNum weekday : Nat) (pois : List GenPOI)
    (windowStart windowEnd : Nat) (pinned : List GenItem) : List GenItem :=
  genLoop dayNum weekday windowEnd pois pinned (pinnedCursor windowStart pinned)

/-- `distributePOIs`: round-robin by input index modulo the day count. -/
def distributePOIs (pois : List GenPOI) (numDays : Nat) :
    List (List GenPOI) :=
  (List.range numDays).map (fun d =>
    ((pois.enum.filter (fun p => p.1 % numDays == d)).map (·.2)))

/-- The preference fields the generator reads.  `startWeekday` is the
weekday (0 = Sunday) of `startEpochDay`. -/
structure GenPrefs where
  startEpochDay : Nat
  endEpochDay : Nat
  startWeekday : Nat
  windowStart : Nat
  windowEnd : Nat
deriving DecidableEq, Repr

/-- `numDays = Math.ceil((end - start) / 86400000)` on UTC-midnight dates:
the difference is an exact number of days. -/
def numDaysOf (prefs : GenPrefs) : Nat :=
  prefs.endEpochDay - prefs.startEpochDay

/-- Per-trip item query order: `ORDER BY day, "order"` restricted to one
day (ties on `"order"` resolved stably, a determinization of the SQL). -/
def dayItemsOf (store : List GenItem) (d : Nat) : List GenItem :=
  (store.filter (fun it => it.day == d)).mergeSort
    (fun a b => Nat.ble a.ord b.ord)

/-- One generated `ItineraryDay`. -/
structure GenDay where
  day : Nat
  items : List GenItem
  total_travel_time_minutes : Nat
  total_cost : Nat
deriving DecidableEq, Repr

/-- `calculateDayTravelTime`: sum of `route_from_previous` durations. -/
def calculateDayTravelTime (items : List GenItem) : Nat :=
  items.foldr (fun it acc => it.routeDur.getD 0 + acc) 0

/-- `calculateDayCost`: sum of `cost_estimate` amounts. -/
def calculateDayCost (items : List GenItem) : Nat :=
  items.foldr (fun it acc => it.cost.getD 0 + acc) 0

/-- `generateDays` (lines 104-151): pinned items are collected per day via
`extractPinnedItems` only when `preservePinned` holds and a prior itinerary
was loaded. -/
def generateDays (pois : List GenPOI) (prefs : GenPrefs)
    (existing : Option (List GenItem)) (preservePinned : Bool) :
    List GenDay :=
  let numDays := numDaysOf prefs
  let buckets := distributePOIs pois numDays
  (List.range numDays).map (fun i =>
    let dayNum := i + 1
    let weekday := (prefs.startWeekday + i) % 7
    let dayPOIs := buckets.getD i []
    let pinned :=
      match existing, preservePinned with
      | some store, true => (dayItemsOf store dayNum).filter (·.is_pinned)
      | _, _ => []
    let items := generateDayItems dayNum weekday dayPOIs
      prefs.windowStart prefs.windowEnd pinned
    { day := dayNum, items := items,
      total_travel_time_minutes := calculateDayTravelTime items,
      total_cost := calculateDayCost items })

/-- The request fields `generateItinerary` branches on. -/
structure GenRequest where
  regenerate_incremental : Bool
  preserve_pinned : Bool
deriving DecidableEq, Repr

/-- `generateItinerary` (lines 26-99) item effect: `pois` is the resolved
POI list (unresolvable ids are skipped before this point); an empty list
raises `ValidationError` (`none`, no mutation).  The prior itinerary is
loaded only when `regenerate_mode === 'incremental'`.  `saveItinerary`
(lines 426-482) deletes ALL `itinerary_items` rows of the trip and inserts
the generated ones.  Returns the new items table and the generated days. -/
def generateItinerary (store : List GenItem) (pois : List GenPOI)
    (prefs : GenPrefs) (req : GenRequest) :
    Option (List GenItem × List GenDay) :=
  if pois.isEmpty then none
  else
    let existing := if req.regenerate_incremental then some store else none
    let days := generateDays pois prefs existing req.preserve_pinned
    some ((days.map (·.items)).flatten, days)

end Generator

/-! ## Event ingest and replan triggers (claim C9)

Embeds `EventMonitorService`
(src/src/services/events/event-monitor.service.ts): the trigger decision of
`ingestWeatherEvent` (lines 59-65), of `ingestClosureEvent` (lines
101-103), and `createReplanTrigger` (lines 145-171), whose `priority`
parameter defaults to `'medium'`. -/

namespace Events

/-- `EventSeverity` from src/src/types/events.ts. -/
inductive Severity
  | low
  | medium
  | high
deriving DecidableEq, Repr

/-- `ReplanTrigger.priority`. -/
inductive Priority
  | low
  | medium
  | high
deriving DecidableEq, Repr

/-- Weather conditions from the weather interface. -/
inductive Condition
  | sunny
  | lightRain
  | heavyRain
  | cloudy
  | snow
deriving DecidableEq, Repr

/-- The `ReplanTrigger` fields the claim is about. -/
structure ReplanTrigger where
  reason : String
  priority : Priority
deriving DecidableEq, Repr

/-- `createReplanTrigger(tripId, eventSignalId, reason, priority)`.  The
source declares `priority: 'low' | 'medium' | 'high' = 'medium'`; both
ingest paths call it without a priority argument, so the embedding's call
sites pass `.medium` explicitly. -/
def createReplanTrigger (reason : String) (priority : Priority) :
    ReplanTrigger :=
  { reason := reason, priority := priority }

/-- Trigger decision of `ingestWeatherEvent`: a trigger is created exactly
when `severity === 'high' && details.condition === 'heavy_rain'`, with no
priority argument (so priority `'medium'`). -/
def weatherTriggerDecision (severity : Severity) (condition : Condition) :
    Option ReplanTrigger :=
  if severity = .high ∧ condition = .heavyRain then
    some (createReplanTrigger "Heavy rain affects outdoor activities"
      .medium)
  else none

/-- Trigger decision of `ingestClosureEvent`: a trigger is created exactly
when `severity === 'high' || severity === 'medium'`, again with the
default priority. -/
def closureTriggerDecision (severity : Severity) : Option ReplanTrigger :=
  if severity = .high ∨ severity = .medium then
    some (createReplanTrigger "Place closure affects itinerary" .medium)
  else none

end Events

/-! ## Replan apply (claims C1, C8, C10)

Embeds `ReplanApplyService`
(src/src/services/replan/replan-apply.service.ts): `applyProposal`,
`applyChanges`, `getDayFromTime`, `calculateDuration`,
`calculateNewEndTime`, `recalculateDayOrder`.  The pre-loaded
`currentItinerary` is the items table at load time; `getItineraryByTripId`
groups it by `day` ascending, so `itinerary.days[0].day` is the least day
number present. -/

namespace Replan

/-- An `itinerary_items` row as the apply service reads and writes it.
`duration_minutes` is an `Int` because `calculateDuration` is a signed
difference. -/
structure RItem where
  id : Nat
  day : Nat
  poi_id : Option Nat
  start_time : Nat
  end_time : Nat
  duration_minutes : Int
  is_pinned : Bool
  ord : Nat
  hasLocation : Bool
deriving DecidableEq, Repr

/-- `changes.replaced_items[].new_item`. -/
structure NewItem where
  id : Nat
  poi_id : Option Nat
  start_time : Nat
  end_time : Nat
  hasLocation : Bool
deriving DecidableEq, Repr

/-- One `changes.replaced_items` entry. -/
structure ReplacedChange where
  old_item_id : Nat
  new_item : NewItem
deriving DecidableEq, Repr

/-- One `changes.moved_items` entry. -/
structure MovedChange where
  item_id : Nat
  old_day : Nat
  new_day : Nat
  old_time : Nat
  new_time : Nat
deriving DecidableEq, Repr

/-- One `changes.added_items` entry. -/
structure AddedChange where
  id : Nat
  poi_id : Option Nat
  day : Nat
  start_time : Nat
  end_time : Nat
deriving DecidableEq, Repr

/-- `ReplanProposal.changes`; `removed_items` entries carry just
`item_id`. -/
structure Changes where
  removed_items : List Nat
  replaced_items : List ReplacedChange
  moved_items : List MovedChange
  added_items : List AddedChange
deriving DecidableEq, Repr

/-- The proposal fields `applyProposal` reads. -/
structure Proposal where
  id : Nat
  trigger_id : Option Nat
  changes : Changes
deriving DecidableEq, Repr

/-- `calculateDuration`: minute difference `end - start` (signed). -/
def calculateDuration (startTime endTime : Nat) : Int :=
  (endTime : Int) - (startTime : Int)

/-- `calculateNewEndTime(newStartTime, oldStartTime, itinerary)` ignores
both the old start time and the itinerary: the source comments "Find
original item to get duration / For simplicity, assume same duration" and
then hard-codes `const duration = 120`, adding it with the wrapping
`addMinutes`. -/
def calculateNewEndTime (newStartTime : Nat) : Nat :=
  addMinutesWrap newStartTime 120

/-- `getDayFromTime(itinerary, timeStr)` returns
`itinerary.days[0]?.day || 1`.  Days are grouped ascending, so
`days[0].day` is the least day number among the loaded items; the JS `||`
also maps a day number `0` to `1`. -/
def getDayFromTime (itin : List RItem) : Nat :=
  match (itin.map (·.day)).min? with
  | some d => if d = 0 then 1 else d
  | none => 1

/-- The row inserted for one `replaced_items` entry (applyChanges lines
123-153): day from `getDayFromTime`, duration recomputed from the new
item's own times, not pinned, order 0 pending renumbering. -/
def replacedRow (itin : List RItem) (r : ReplacedChange) : RItem :=
  { id := r.new_item.id, day := getDayFromTime itin,
    poi_id := r.new_item.poi_id,
    start_time := r.new_item.start_time, end_time := r.new_item.end_time,
    duration_minutes :=
      calculateDuration r.new_item.start_time r.new_item.end_time,
    is_pinned := false, ord := 0, hasLocation := r.new_item.hasLocation }

/-- The row inserted for one `added_items` entry (lines 172-193); its
`location` column is inserted as NULL. -/
def addedRow (a : AddedChange) : RItem :=
  { id := a.id, day := a.day, poi_id := a.poi_id,
    start_time := a.start_time, end_time := a.end_time,
    duration_minutes := calculateDuration a.start_time a.end_time,
    is_pinned := false, ord := 0, hasLocation := false }

/-- One `replaced_items` step: delete the old row, insert the new one. -/
def replaceStep (itin : List RItem) (acc : List RItem)
    (r : ReplacedChange) : List RItem :=
  acc.filter (fun it => it.id != r.old_item_id) ++ [replacedRow itin r]

/-- One `moved_items` step: `UPDATE ... SET day, start_time, end_time` on
the matching row; `duration_minutes` is not touched. -/
def moveStep (acc : List RItem) (m : MovedChange) : List RItem :=
  acc.map (fun it =>
    if it.id = m.item_id then
      { it with
          day := m.new_day,
          start_time := m.new_time,
          end_time := calculateNewEndTime m.new_time }
    else it)

/-- `recalculateDayOrder`: rows of the day, ordered by `start_time`
(`ROW_NUMBER() OVER (ORDER BY start_time)`, ties resolved stably as a
determinization of the SQL), get `"order" := row_num - 1`. -/
def renumberDay (items : List RItem) (d : Nat) : List RItem :=
  let sorted := (items.filter (fun it => it.day == d)).mergeSort
    (fun a b => Nat.ble a.start_time b.start_time)
  items.map (fun it =>
    if it.day == d then
      { it with ord := sorted.findIdx (fun x => x.id == it.id) }
    else it)

/-- The JS `Set` of affected days in insertion order: moved old/new days,
then the (pre-state) days of replaced old items, then added days. -/
def affectedDaysList (itin : List RItem) (p : Proposal) : List Nat :=
  (p.changes.moved_items.flatMap (fun m => [m.old_day, m.new_day]) ++
   p.changes.replaced_items.filterMap (fun r =>
     (itin.find? (fun it => it.id == r.old_item_id)).map (·.day)) ++
   p.changes.added_items.map (·.day)).foldl
    (fun acc d => if acc.contains d then acc else acc ++ [d]) []

/-- `applyChanges` (lines 108-210) on the items table, which at the start
of the transaction equals the pre-loaded itinerary `itin`: remove, replace,
move, add, then renumber every affected day. -/
def applyChanges (itin : List RItem) (p : Proposal) : List RItem :=
  let s1 := itin.filter (fun it => !(p.changes.removed_items.contains it.id))
  let s2 := p.changes.replaced_items.foldl (replaceStep itin) s1
  let s3 := p.changes.moved_items.foldl moveStep s2
  let s4 := s3 ++ p.changes.added_items.map addedRow
  (affectedDaysList itin p).foldl renumberDay s4

/-- One `itinerary_versions` row, as the apply pipeline sees it. -/
structure RSnapshot where
  version : Nat
  change_type : String
deriving DecidableEq, Repr

/-- One `replan_applications` row. -/
structure RApplication where
  proposal_id : Nat
  applied_version : Nat
deriving DecidableEq, Repr

/-- The store state `applyProposal` can touch: the trip's items, the
`itineraries.version`, the version snapshots (insertion order), the
`replan_applications` rows and the processed trigger ids. -/
structure RStore where
  items : List RItem
  version : Nat
  snapshots : List RSnapshot
  applications : List RApplication
  processedTriggers : List Nat
deriving DecidableEq, Repr

/-- The snapshot `applyProposal` writes before `BEGIN`: current version,
`change_type = 'replan'`. -/
def replanSnapshot (s : RStore) : RSnapshot :=
  { version := s.version, change_type := "replan" }

/-- Number of store writes issued between `BEGIN` and `COMMIT` inclusive:
the deletes, inserts and updates of `applyChanges`, the per-day order
renumberings, the version `UPDATE`, the `replan_applications` `INSERT`,
the trigger `UPDATE` when a trigger is attached, and the `COMMIT` itself. -/
def txnOpCount (itin : List RItem) (p : Proposal) : Nat :=
  p.changes.removed_items.length + 2 * p.changes.replaced_items.length +
    p.changes.moved_items.length + p.changes.added_items.length +
    (affectedDaysList itin p).length + 2 +
    (match p.trigger_id with | some _ => 1 | none => 0) + 1

/-- `applyProposal` (lines 23-103) with a forced store failure injected at
position `failAt` among the writes after the itinerary is loaded:
position `0` is the pre-transaction `createSnapshot` insert (it fails, so
nothing is persisted); positions `1 ≤ j ≤ txnOpCount` are the writes
between `BEGIN` and `COMMIT` — the failure triggers `ROLLBACK`, discarding
every effect since `BEGIN`, but the snapshot written before `BEGIN`
persists.  `none` (or a position past the last write) means no failure.
Returns the resulting store and a success flag (`false` = the apply threw). -/
def applyProposalRun (s : RStore) (p : Proposal) (failAt : Option Nat) :
    RStore × Bool :=
  match failAt with
  | some 0 => (s, false)
  | _ =>
      let sSnap := { s with snapshots := s.snapshots ++ [replanSnapshot s] }
      let fails : Bool :=
        match failAt with
        | some (k + 1) => decide (k < txnOpCount s.items p)
        | _ => false
      if fails then (sSnap, false)
      else
        let newVersion := s.version + 1
        ({ items := applyChanges s.items p,
           version := newVersion,
           snapshots := sSnap.snapshots,
           applications := s.applications ++ [⟨p.id, newVersion⟩],
           processedTriggers := s.processedTriggers ++
             (match p.trigger_id with | some t => [t] | none => []) },
         true)

end Replan

/-! ## Claim C2: booking state-transition validation -/

/-- The transition graph exactly as claim C2 lists it:
null→pending, pending→{confirmed, failed}, failed→pending,
confirmed→{canceled, refunded}, canceled→refunded, refunded terminal. -/
def claimGraphEdge (f : Option Booking.BookingStatus)
    (t : Booking.BookingStatus) : Prop :=
  (f = none ∧ t = .pending) ∨
  (f = some .pending ∧ (t = .confirmed ∨ t = .failed)) ∨
  (f = some .failed ∧ t = .pending) ∨
  (f = some .confirmed ∧ (t = .canceled ∨ t = .refunded)) ∨
  (f = some .canceled ∧ t = .refunded)

/-- A booking still in `pending`, with its creation history row. -/
def c2pendingBooking : Booking.BookingRec :=
  { status := .pending, history := [(none, .pending)] }

/-- C2, counterexample: cancelling a booking still in `pending` leaves the
booking and its history unchanged, but the error raised is the plain
`Error('Can only cancel confirmed bookings')` of
`BookingOrchestratorService.cancelBooking` — not a `Validation` error as
the claim states. -/
theorem c2_cancel_pending_not_validation :
    (Booking.cancelBookingRun c2pendingBooking true).2 =
      some Booking.ErrKind.generic ∧
    Booking.ErrKind.generic ≠ Booking.ErrKind.validation ∧
    (Booking.cancelBookingRun c2pendingBooking true).1 = c2pendingBooking := by
  decide

/-- C2, amended: a status change requested through `updateBookingStatus`
succeeds exactly when `(from, to)` is an edge of the claimed graph, and
otherwise fails with a `Validation` error leaving status and history
unchanged; but `cancelBooking` on a booking that is not `confirmed`
(in particular one still in `pending`) fails with a plain generic error,
not a `Validation` error, likewise leaving status and history unchanged. -/
theorem c2_transition_graph_and_cancel (b : Booking.BookingRec)
    (toStatus : Booking.BookingStatus) (pok : Bool) :
    (((Booking.updateBookingStatusRun b toStatus).2 = none) ↔
      claimGraphEdge (some b.status) toStatus) ∧
    ((Booking.updateBookingStatusRun b toStatus).2 ≠ none →
      (Booking.updateBookingStatusRun b toStatus).2 =
        some Booking.ErrKind.validation ∧
      (Booking.updateBookingStatusRun b toStatus).1 = b) ∧
    (b.status ≠ .confirmed →
      (Booking.cancelBookingRun b pok).2 = some Booking.ErrKind.generic ∧
      (Booking.cancelBookingRun b pok).1 = b) := by
  obtain ⟨st, hist⟩ := b
  cases st <;> cases toStatus <;>
    simp [Booking.updateBookingStatusRun, Booking.validateStateTransition,
      Booking.validTransitions, Booking.cancelBookingRun, claimGraphEdge]

/-- C2, witness: the amended theorem applied to the pending booking. -/
theorem c2_transition_graph_and_cancel_witness :
    Booking.BookingRec.status c2pendingBooking ≠ .confirmed ∧
    ((Booking.cancelBookingRun c2pendingBooking true).2 =
        some Booking.ErrKind.generic ∧
      (Booking.cancelBookingRun c2pendingBooking true).1 = c2pendingBooking) :=
  ⟨by decide,
    (c2_transition_graph_and_cancel c2pendingBooking .canceled true).2.2
      (by decide)⟩

/-! ## Claim C3: createBooking idempotency -/

/-- C3: reusing an idempotency key returns the same booking id and creates
no new row in `bookings`, `booking_state_history` or `booking_idempotency`:
the second call returns the first call's store unchanged.  `NoDangling` is
the schema guarantee that every `booking_idempotency` row points at an
existing booking (PRIMARY KEY + cascading foreign key). -/
theorem c3_createBooking_idempotent (s : Booking.BookingStore) (key : Nat)
    (h : Booking.NoDangling s) :
    ∃ s1 id1, Booking.createBooking s key = some (s1, id1) ∧
      Booking.createBooking s1 key = some (s1, id1) := by
  cases hj : Booking.joinLookup s key with
  | some b =>
      exact ⟨s, b.id, by simp [Booking.createBooking, hj],
        by simp [Booking.createBooking, hj]⟩
  | none =>
      have hkey : s.idempotency.any (fun kv => kv.1 == key) = false := by
        by_contra hany
        rw [Bool.not_eq_false, List.any_eq_true] at hany
        obtain ⟨kv, hkv, hbeq⟩ := hany
        have hfs : (s.idempotency.find? (fun kv => kv.1 == key)).isSome :=
          List.find?_isSome.mpr ⟨kv, hkv, hbeq⟩
        obtain ⟨kv1, hfind⟩ := Option.isSome_iff_exists.mp hfs
        have hkv1mem : kv1 ∈ s.idempotency := List.mem_of_find?_eq_some hfind
        obtain ⟨bb, hbbmem, hbbid⟩ := h kv1 hkv1mem
        have hbs : (s.bookings.find? (fun x => x.id == kv1.2)).isSome :=
          List.find?_isSome.mpr ⟨bb, hbbmem, by simp [hbbid]⟩
        obtain ⟨bb1, hbb1⟩ := Option.isSome_iff_exists.mp hbs
        rw [Booking.joinLookup, hfind] at hj
        simp [hbb1] at hj
      refine ⟨{ bookings := ⟨s.nextId, .pending⟩ :: s.bookings,
                history := ⟨s.nextId, none, .pending⟩ :: s.history,
                idempotency := (key, s.nextId) :: s.idempotency,
                nextId := s.nextId + 1 }, s.nextId, ?_, ?_⟩
      · simp [Booking.createBooking, hj, hkey]
      · simp [Booking.createBooking, Booking.joinLookup, List.find?]

/-- The empty booking store. -/
def c3emptyStore : Booking.BookingStore :=
  { bookings := [], history := [], idempotency := [], nextId := 0 }

/-- C3, witness: the idempotency theorem applied to the empty store and
key 42. -/
theorem c3_createBooking_idempotent_witness :
    Booking.NoDangling c3emptyStore ∧
    ∃ s1 id1, Booking.createBooking c3emptyStore 42 = some (s1, id1) ∧
      Booking.createBooking s1 42 = some (s1, id1) :=
  ⟨by simp [Booking.NoDangling, c3emptyStore],
    c3_createBooking_idempotent c3emptyStore 42
      (by simp [Booking.NoDangling, c3emptyStore])⟩

/-! ## Claim C6: the two-day generation scenario -/

/-- POI A of the scenario: 120 minutes, open 09:00-17:00 every weekday,
price 500 THB (as `price_range` min = max = 500). -/
def poiA : Generator.GenPOI :=
  { pid := 1, avg_duration_minutes := 120,
    hours := List.replicate 7
      (some { openM := some 540, closeM := some 1020, closed := false }),
    price_range := some (500, 500) }

/-- POI B of the scenario: 90 minutes, open 09:00-18:00, 200 THB. -/
def poiB : Generator.GenPOI :=
  { pid := 2, avg_duration_minutes := 90,
    hours := List.replicate 7
      (some { openM := some 540, closeM := some 1080, closed := false }),
    price_range := some (200, 200) }

/-- Preferences of the scenario: dates 2025-03-01..2025-03-02 (epoch days
0 and 1; 2025-03-01 is a Saturday, weekday 6), daily window
10:00-20:00. -/
def scenarioPrefs : Generator.GenPrefs :=
  { startEpochDay := 0, endEpochDay := 1, startWeekday := 6,
    windowStart := 600, windowEnd := 1200 }

/-- C6, counterexample: `numDays = Math.ceil((end - start) / 86400000)` is
`1` for dates one day apart, so the generator produces one day, not the
two days the claim states. -/
theorem c6_scenario_not_two_days :
    (Generator.generateDays [poiA, poiB] scenarioPrefs none false).length
      ≠ 2 := by
  decide

/-- The days the generator produces for the scenario input. -/
def c6days : List Generator.GenDay :=
  Generator.generateDays [poiA, poiB] scenarioPrefs none false

/-- All items of the scenario output, in day order. -/
def c6items : List Generator.GenItem := (c6days.map (fun d => d.items)).flatten

/-- C6, amended: for the scenario preferences the day count
`N = ceil((end - start) / 1 day)` is 1, and generation produces exactly one
day containing A at 10:15-12:15 (615-735, cost 500) followed by B at
12:50-14:20 (770-860, cost 200) — B is delayed by the 20-minute travel
placeholder plus the 15-minute buffer — with day cost 700. -/
theorem c6_scenario_single_day :
    Generator.numDaysOf scenarioPrefs = 1 ∧
    c6days.map (fun d => d.day) = [1] ∧
    c6items.map (fun it => it.poi_id) = [some 1, some 2] ∧
    c6items.map (fun it => (it.start_time, it.end_time)) =
      [(615, 735), (770, 860)] ∧
    c6items.map (fun it => it.cost) = [some 500, some 200] ∧
    c6days.map (fun d => d.total_cost) = [700] := by
  decide

/-! ## Claim C7: the editor re-flow policy -/

/-- A day whose re-flow exposes the cursor rule for pinned items: an
unpinned 120-minute item, then a pinned item at 09:00-09:30 that ends
before the cursor, then an unpinned 60-minute item. -/
def c7items : List Editor.EdItem :=
  [{ id := 0, start_time := 600, end_time := 720, duration_minutes := 120,
     is_pinned := false },
   { id := 1, start_time := 540, end_time := 570, duration_minutes := 30,
     is_pinned := true },
   { id := 2, start_time := 0, end_time := 60, duration_minutes := 60,
     is_pinned := false }]

/-- C7, counterexample: with daily window start 10:00 the source re-flow
differs from the claimed policy.  After the first item the cursor is 12:00;
the pinned item (09:00-09:30) keeps its times, but the source sets the
cursor to its end 09:30 — `max(cursor, item.end)` would keep 12:00 — so the
third item is re-flowed to 09:30-10:30 instead of 12:00-13:00. -/
theorem c7_reflow_differs_from_claimed_policy :
    Editor.recalculateDayTimes 600 c7items ≠
      Editor.reflowSpecLoop 600 c7items := by
  decide

/-- C7, amended: the re-flow follows the claimed policy with the pinned
branch amended to `cursor = item.end` (not `max(cursor, item.end)`), so the
cursor can move backward past an earlier-ending pinned item; unpinned
items get `start = cursor`, `end = cursor + duration` in the editor's
wrapping minute arithmetic, and `cursor = item.end`. -/
theorem c7_reflow_follows_amended_policy (windowStart : Nat)
    (items : List Editor.EdItem) :
    Editor.recalculateDayTimes windowStart items =
      Editor.reflowAmendedLoop windowStart items := by
  unfold Editor.recalculateDayTimes
  induction items generalizing windowStart with
  | nil => rfl
  | cons it rest ih =>
      simp only [Editor.recalcLoop, Editor.reflowAmendedLoop]
      by_cases h : it.is_pinned = true ∧ it.start_time ≠ windowStart
      · simp [h, ih]
      · simp [h, ih]

/-! ## Claim C8: moved items and duration preservation -/

/-- A 90-minute item (09:00-10:30) on day 1. -/
def c8item : Replan.RItem :=
  { id := 5, day := 1, poi_id := none, start_time := 540, end_time := 630,
    duration_minutes := 90, is_pinned := false, ord := 0,
    hasLocation := false }

/-- The move: the 90-minute item goes to day 2 at 10:00. -/
def c8move : Replan.MovedChange :=
  { item_id := 5, old_day := 1, new_day := 2, old_time := 540,
    new_time := 600 }

/-- A proposal that moves the 90-minute item to day 2 at 10:00. -/
def c8proposal : Replan.Proposal :=
  { id := 7, trigger_id := none,
    changes :=
      { removed_items := [],
        replaced_items := [],
        moved_items := [c8move],
        added_items := [] } }

unseal List.merge List.mergeSort in
/-- C8: `calculateNewEndTime` ignores the moved item's original duration —
despite its own comment "assume same duration" it hard-codes 120 minutes —
so the 90-minute item moved to 10:00 ends at 12:00 (720), not at
11:30 (690) as the claim (new_time plus original duration) requires, while
its stored `duration_minutes` stays 90. -/
theorem c8_moved_item_duration_not_preserved :
    ((Replan.applyChanges [c8item] c8proposal).find?
        (fun it => it.id == 5)).map (fun it => it.end_time) = some 720 ∧
    ((Replan.applyChanges [c8item] c8proposal).find?
        (fun it => it.id == 5)).map (fun it => it.duration_minutes) =
      some 90 ∧
    (720 : Nat) ≠ 600 + 90 := by
  decide

/-! ## Claim C9: replan-trigger priority -/

/-- C9, counterexample: a high-severity heavy-rain weather event emits a
trigger with priority `'medium'` — the default of `createReplanTrigger`,
which `ingestWeatherEvent` calls without a priority argument — not
priority `'high'` as the claim states. -/
theorem c9_high_heavy_rain_trigger_is_medium :
    (Events.weatherTriggerDecision .high .heavyRain).map
        (fun t => t.priority) = some Events.Priority.medium ∧
    Events.Priority.medium ≠ Events.Priority.high := by
  decide

/-- C9, amended: a weather event emits a `ReplanTrigger` exactly when
severity is high and the condition is heavy rain, and a closure event
exactly when severity is medium or high — but every trigger emitted by
ingest carries the default priority `'medium'`, regardless of the event's
severity. -/
theorem c9_trigger_condition_and_default_priority
    (sev : Events.Severity) (cond : Events.Condition) :
    (Events.weatherTriggerDecision sev cond).map (fun t => t.priority) =
      (if sev = .high ∧ cond = .heavyRain
        then some Events.Priority.medium else none) ∧
    (Events.closureTriggerDecision sev).map (fun t => t.priority) =
      (if sev = .high ∨ sev = .medium
        then some Events.Priority.medium else none) := by
  cases sev <;> cases cond <;> decide

/-! ## Claim C1: atomicity of applyProposal -/

/-- A store with one prior snapshot at the current version 3. -/
def c1store : Replan.RStore :=
  { items := [], version := 3,
    snapshots := [{ version := 3, change_type := "edit" }],
    applications := [], processedTriggers := [] }

/-- A proposal with no changes (its transaction still issues the version
update, the application insert and the commit). -/
def c1proposal : Replan.Proposal :=
  { id := 9, trigger_id := none,
    changes :=
      { removed_items := [], replaced_items := [],
        moved_items := [], added_items := [] } }

/-- C1, counterexample: force the first store failure after `BEGIN`.  The
apply surfaces an error, and the transaction rollback restores items and
version — but `createSnapshot` ran *before* `BEGIN`
(replan-apply.service.ts line 41 versus line 49), so the persisted set of
version snapshots has grown by one `change_type='replan'` row: the
post-state is not the pre-state. -/
theorem c1_failed_apply_keeps_presnapshot :
    (Replan.applyProposalRun c1store c1proposal (some 1)).2 = false ∧
    (Replan.applyProposalRun c1store c1proposal (some 1)).1 ≠ c1store := by
  decide

/-- C1, amended: for every forced store failure between loading the
itinerary and commit, the apply surfaces an error and the itinerary's
items, the itinerary version, the replan applications and the processed
triggers are identical to the pre-state; the set of version snapshots is
either unchanged (failure at or before the pre-transaction snapshot
insert) or extended by exactly the pre-apply `change_type='replan'`
snapshot of the current version (failure after `BEGIN`). -/
theorem c1_failed_apply_effects (s : Replan.RStore) (p : Replan.Proposal)
    (failAt : Option Nat)
    (h : (Replan.applyProposalRun s p failAt).2 = false) :
    (Replan.applyProposalRun s p failAt).1.items = s.items ∧
    (Replan.applyProposalRun s p failAt).1.version = s.version ∧
    (Replan.applyProposalRun s p failAt).1.applications = s.applications ∧
    (Replan.applyProposalRun s p failAt).1.processedTriggers =
      s.processedTriggers ∧
    ((Replan.applyProposalRun s p failAt).1.snapshots = s.snapshots ∨
      (Replan.applyProposalRun s p failAt).1.snapshots =
        s.snapshots ++ [Replan.replanSnapshot s]) := by
  cases failAt with
  | none => simp [Replan.applyProposalRun] at h
  | some n =>
      cases n with
      | zero => simp [Replan.applyProposalRun]
      | succ k =>
          by_cases hk : k < Replan.txnOpCount s.items p
          · simp [Replan.applyProposalRun, hk]
          · simp [Replan.applyProposalRun, hk] at h

/-- C1, witness: the amended theorem at the concrete store, proposal and
failure point 1 (the first write inside the transaction). -/
theorem c1_failed_apply_effects_witness :
    (Replan.applyProposalRun c1store c1proposal (some 1)).2 = false ∧
    ((Replan.applyProposalRun c1store c1proposal (some 1)).1.items =
        c1store.items ∧
      (Replan.applyProposalRun c1store c1proposal (some 1)).1.version =
        c1store.version ∧
      (Replan.applyProposalRun c1store c1proposal (some 1)).1.applications =
        c1store.applications ∧
      (Replan.applyProposalRun c1store c1proposal
          (some 1)).1.processedTriggers = c1store.processedTriggers ∧
      ((Replan.applyProposalRun c1store c1proposal (some 1)).1.snapshots =
          c1store.snapshots ∨
        (Replan.applyProposalRun c1store c1proposal (some 1)).1.snapshots =
          c1store.snapshots ++ [Replan.replanSnapshot c1store])) :=
  ⟨by decide, c1_failed_apply_effects c1store c1proposal (some 1) (by decide)⟩

/-! ## Claim C5: snapshot versions under editor operations -/

/-- The version state right after a first generation: version 1 with one
snapshot at version 1. -/
def c5genState : Versioning.VersionState :=
  Versioning.applyGenerate { version := 0, snapshots := [] }

/-- C5, counterexample: one editor operation after generation appends a
second snapshot at the *same* version — editor operations insert a
snapshot at the current `itineraries.version` without bumping it — so the
snapshot versions `[1, 1]` are not strictly increasing. -/
theorem c5_editor_snapshots_not_strictly_increasing :
    ¬ Versioning.strictlyIncreasing
        (Versioning.applyEditorOps c5genState
          [Versioning.EditorOp.togglePin]).snapshots := by
  simp [Versioning.applyEditorOps, Versioning.applyEditorOp, c5genState,
    Versioning.applyGenerate, List.chain'_cons]

/-- Every member of a version list is bounded by `maxVersion`. -/
theorem mem_le_maxVersion {l : List Nat} {x : Nat} (hx : x ∈ l) :
    x ≤ Versioning.maxVersion l := by
  induction l with
  | nil => cases hx
  | cons a t ih =>
      rcases List.mem_cons.mp hx with h | h
      · subst h; exact Nat.le_max_left _ _
      · exact Nat.le_trans (ih h) (Nat.le_max_right _ _)

/-- `maxVersion` of a list with one version appended. -/
theorem maxVersion_append_singleton (l : List Nat) (v : Nat) :
    Versioning.maxVersion (l ++ [v]) =
      max (Versioning.maxVersion l) v := by
  induction l with
  | nil => simp [Versioning.maxVersion]
  | cons a t ih =>
      show max a (Versioning.maxVersion (t ++ [v])) = _
      rw [ih, ← Nat.max_assoc]
      rfl

/-- Appending a version that dominates a non-decreasing list keeps it
non-decreasing. -/
theorem nondecreasing_append_singleton {l : List Nat} {v : Nat}
    (hl : Versioning.nondecreasing l) (hle : ∀ x ∈ l, x ≤ v) :
    Versioning.nondecreasing (l ++ [v]) := by
  rw [Versioning.nondecreasing, List.chain'_append]
  refine ⟨hl, List.chain'_singleton _, ?_⟩
  intro x hx y hy
  obtain ⟨hne, hxl⟩ := List.mem_getLast?_eq_getLast hx
  have hyv : y = v := (by simpa using hy : v = y).symm
  subst hyv
  exact hle x (hxl ▸ List.getLast_mem hne)

/-- C5, amended: editor operations never bump the itinerary version; each
appends one snapshot at the unchanged current version.  Hence, from any
state whose snapshot versions are non-decreasing with maximum equal to the
current version (as after generation), any sequence of editor operations
keeps the snapshot versions non-decreasing — not strictly increasing — and
keeps the highest snapshot version equal to the (unchanged) current
itinerary version. -/
theorem c5_editor_snapshots_nondecreasing (s : Versioning.VersionState)
    (ops : List Versioning.EditorOp)
    (h1 : Versioning.nondecreasing s.snapshots)
    (h2 : Versioning.maxVersion s.snapshots = s.version) :
    Versioning.nondecreasing (Versioning.applyEditorOps s ops).snapshots ∧
    Versioning.maxVersion (Versioning.applyEditorOps s ops).snapshots =
      (Versioning.applyEditorOps s ops).version ∧
    (Versioning.applyEditorOps s ops).version = s.version := by
  induction ops generalizing s with
  | nil => exact ⟨h1, h2, rfl⟩
  | cons op rest ih =>
      have hstep1 :
          Versioning.nondecreasing (Versioning.applyEditorOp s op).snapshots :=
        nondecreasing_append_singleton h1 (fun x hx => h2 ▸ mem_le_maxVersion hx)
      have hstep2 :
          Versioning.maxVersion (Versioning.applyEditorOp s op).snapshots =
            (Versioning.applyEditorOp s op).version := by
        show Versioning.maxVersion (s.snapshots ++ [s.version]) = s.version
        rw [maxVersion_append_singleton, h2]
        exact Nat.max_self _
      have hrest := ih (Versioning.applyEditorOp s op) hstep1 hstep2
      exact ⟨hrest.1, hrest.2.1, hrest.2.2⟩

/-- C5, witness: the amended theorem at the post-generation state for the
operation sequence [togglePin, addItem]. -/
theorem c5_editor_snapshots_nondecreasing_witness :
    Versioning.nondecreasing c5genState.snapshots ∧
    Versioning.maxVersion c5genState.snapshots = c5genState.version ∧
    (Versioning.nondecreasing
        (Versioning.applyEditorOps c5genState
          [Versioning.EditorOp.togglePin,
            Versioning.EditorOp.addItem]).snapshots ∧
      Versioning.maxVersion
          (Versioning.applyEditorOps c5genState
            [Versioning.EditorOp.togglePin,
              Versioning.EditorOp.addItem]).snapshots =
        (Versioning.applyEditorOps c5genState
          [Versioning.EditorOp.togglePin,
            Versioning.EditorOp.addItem]).version ∧
      (Versioning.applyEditorOps c5genState
        [Versioning.EditorOp.togglePin,
          Versioning.EditorOp.addItem]).version = c5genState.version) :=
  ⟨by simp [c5genState, Versioning.applyGenerate], by decide,
    c5_editor_snapshots_nondecreasing c5genState
      [Versioning.EditorOp.togglePin, Versioning.EditorOp.addItem]
      (by simp [c5genState, Versioning.applyGenerate]) (by decide)⟩

/-! ## Claim C10: replacement items land on the first day -/

/-- The claim's phrase for the target day: "the first day of the itinerary
(`itinerary.days[0].day`, or 1 when there are no days)" — with days grouped
ascending, the least day number present. -/
def firstDayOrOne (itin : List Replan.RItem) : Nat :=
  match (itin.map (fun it => it.day)).min? with
  | some d => d
  | none => 1

/-- When every item's day number is at least 1 (day numbering is 1..N),
the source's `getDayFromTime` agrees with the claim's phrase: the JS `||`
in `itinerary.days[0]?.day || 1` only diverges at day number 0. -/
theorem getDayFromTime_eq_firstDayOrOne (itin : List Replan.RItem)
    (hpos : ∀ it ∈ itin, 1 ≤ it.day) :
    Replan.getDayFromTime itin = firstDayOrOne itin := by
  unfold Replan.getDayFromTime firstDayOrOne
  cases hmin : (itin.map (fun it => it.day)).min? with
  | none => rfl
  | some d =>
      have hd : d ∈ itin.map (fun it => it.day) :=
        List.min?_mem (fun a b => by omega) hmin
      obtain ⟨it, hit, hitday⟩ := List.mem_map.mp hd
      have h1 : 1 ≤ d := hitday ▸ hpos it hit
      simp only []
      rw [if_neg (by omega)]

/-- An element survives the replaced-items fold when no entry deletes its
id. -/
theorem mem_replaceFold (itin : List Replan.RItem) {x : Replan.RItem} :
    ∀ (l : List Replan.ReplacedChange) (acc : List Replan.RItem),
      x ∈ acc → (∀ r2 ∈ l, r2.old_item_id ≠ x.id) →
      x ∈ l.foldl (Replan.replaceStep itin) acc := by
  intro l
  induction l with
  | nil => intro acc hx _; simpa using hx
  | cons r1 rest ih =>
      intro acc hx hne
      rw [List.foldl_cons]
      refine ih _ ?_ (fun r2 h2 => hne r2 (List.mem_cons_of_mem _ h2))
      unfold Replan.replaceStep
      refine List.mem_append_left _ (List.mem_filter.mpr ⟨hx, ?_⟩)
      simpa using (hne r1 (List.mem_cons_self r1 rest)).symm

/-- The row inserted for a replaced entry is in the fold's result when no
entry (including later ones) deletes the new item's id. -/
theorem replacedRow_mem_replaceFold (itin : List Replan.RItem)
    {r : Replan.ReplacedChange} :
    ∀ (l : List Replan.ReplacedChange) (acc : List Replan.RItem),
      r ∈ l → (∀ r2 ∈ l, r2.old_item_id ≠ r.new_item.id) →
      Replan.replacedRow itin r ∈ l.foldl (Replan.replaceStep itin) acc := by
  intro l
  induction l with
  | nil => intro acc hr _; cases hr
  | cons r1 rest ih =>
      intro acc hr hne
      rw [List.foldl_cons]
      rcases List.mem_cons.mp hr with h | h
      · subst h
        refine mem_replaceFold itin rest _ ?_
          (fun r2 h2 => hne r2 (List.mem_cons_of_mem _ h2))
        exact List.mem_append_right _ (List.mem_singleton.mpr rfl)
      · exact ih _ h (fun r2 h2 => hne r2 (List.mem_cons_of_mem _ h2))

/-- An element survives the moved-items fold unchanged when no move
targets its id. -/
theorem mem_moveFold {x : Replan.RItem} :
    ∀ (l : List Replan.MovedChange) (acc : List Replan.RItem),
      x ∈ acc → (∀ m ∈ l, m.item_id ≠ x.id) →
      x ∈ l.foldl Replan.moveStep acc := by
  intro l
  induction l with
  | nil => intro acc hx _; simpa using hx
  | cons m rest ih =>
      intro acc hx hne
      rw [List.foldl_cons]
      refine ih _ ?_ (fun m2 h2 => hne m2 (List.mem_cons_of_mem _ h2))
      have hxid : ¬(x.id = m.item_id) :=
        fun h => hne m (List.mem_cons_self m rest) h.symm
      unfold Replan.moveStep
      exact List.mem_map.mpr ⟨x, hx, by simp [hxid]⟩

/-- Order renumbering never changes an item's id, day or times: each
affected element survives with those fields intact. -/
theorem renumberFold_preserves :
    ∀ (days : List Nat) (acc : List Replan.RItem) (x : Replan.RItem),
      x ∈ acc →
      ∃ y ∈ days.foldl Replan.renumberDay acc,
        y.id = x.id ∧ y.day = x.day ∧ y.start_time = x.start_time ∧
          y.end_time = x.end_time := by
  intro days
  induction days with
  | nil => intro acc x hx; exact ⟨x, by simpa using hx, rfl, rfl, rfl, rfl⟩
  | cons d rest ih =>
      intro acc x hx
      rw [List.foldl_cons]
      have hximg : ∃ y0 ∈ Replan.renumberDay acc d,
          y0.id = x.id ∧ y0.day = x.day ∧ y0.start_time = x.start_time ∧
            y0.end_time = x.end_time := by
        unfold Replan.renumberDay
        refine ⟨_, List.mem_map_of_mem _ hx, ?_⟩
        by_cases hd : (x.day == d) = true <;> simp [hd]
      obtain ⟨y0, hy0, e1, e2, e3, e4⟩ := hximg
      obtain ⟨y, hy, g1, g2, g3, g4⟩ := ih _ y0 hy0
      exact ⟨y, hy, g1.trans e1, g2.trans e2, g3.trans e3, g4.trans e4⟩

/-- C10: when a proposal with replaced items is applied, every replacement
item whose id no change entry deletes or moves is inserted with its day set
to the first day of the itinerary (`itinerary.days[0].day`, or 1 when
there are no days) — regardless of which day the replaced old item was on. -/
theorem c10_replacements_inserted_on_first_day
    (itin : List Replan.RItem) (p : Replan.Proposal)
    (r : Replan.ReplacedChange)
    (hr : r ∈ p.changes.replaced_items)
    (hrep : ∀ r2 ∈ p.changes.replaced_items,
      r2.old_item_id ≠ r.new_item.id)
    (hmov : ∀ m ∈ p.changes.moved_items, m.item_id ≠ r.new_item.id)
    (hpos : ∀ it ∈ itin, 1 ≤ it.day) :
    ∃ y ∈ Replan.applyChanges itin p,
      y.id = r.new_item.id ∧ y.day = firstDayOrOne itin := by
  have h2 := replacedRow_mem_replaceFold itin p.changes.replaced_items
    (itin.filter (fun it => !(p.changes.removed_items.contains it.id)))
    hr hrep
  have h3 := mem_moveFold p.changes.moved_items _ h2
    (fun m hm => hmov m hm)
  have h4 := List.mem_append_left
    (p.changes.added_items.map Replan.addedRow) h3
  obtain ⟨y, hy, g1, g2, _, _⟩ :=
    renumberFold_preserves (Replan.affectedDaysList itin p) _ _ h4
  refine ⟨y, hy, ?_, ?_⟩
  · exact g1
  · rw [g2]
    exact getDayFromTime_eq_firstDayOrOne itin hpos

/-- An item on day 1. -/
def c10day1Item : Replan.RItem :=
  { id := 10, day := 1, poi_id := some 3, start_time := 600,
    end_time := 660, duration_minutes := 60, is_pinned := false,
    ord := 0, hasLocation := true }

/-- The item to be replaced, on day 2. -/
def c10oldItem : Replan.RItem :=
  { id := 11, day := 2, poi_id := some 4, start_time := 700,
    end_time := 800, duration_minutes := 100, is_pinned := false,
    ord := 0, hasLocation := true }

/-- The replacement's new item. -/
def c10newItem : Replan.NewItem :=
  { id := 20, poi_id := some 8, start_time := 700, end_time := 760,
    hasLocation := true }

/-- The replacement entry for the day-2 item. -/
def c10replacement : Replan.ReplacedChange :=
  { old_item_id := 11, new_item := c10newItem }

/-- A proposal replacing the day-2 item. -/
def c10proposal : Replan.Proposal :=
  { id := 12, trigger_id := some 2,
    changes :=
      { removed_items := [], replaced_items := [c10replacement],
        moved_items := [], added_items := [] } }

/-- C10, witness: the theorem at a two-day itinerary whose replaced item
is on day 2: its replacement lands on day 1. -/
theorem c10_replacements_inserted_on_first_day_witness :
    c10replacement ∈ c10proposal.changes.replaced_items ∧
    (∀ r2 ∈ c10proposal.changes.replaced_items,
      r2.old_item_id ≠ c10replacement.new_item.id) ∧
    (∀ m ∈ c10proposal.changes.moved_items,
      m.item_id ≠ c10replacement.new_item.id) ∧
    (∀ it ∈ [c10day1Item, c10oldItem], 1 ≤ it.day) ∧
    ∃ y ∈ Replan.applyChanges [c10day1Item, c10oldItem] c10proposal,
      y.id = c10replacement.new_item.id ∧
        y.day = firstDayOrOne [c10day1Item, c10oldItem] :=
  ⟨by simp [c10proposal], by simp [c10proposal, c10replacement, c10newItem],
    by simp [c10proposal],
    by simp [c10day1Item, c10oldItem],
    c10_replacements_inserted_on_first_day [c10day1Item, c10oldItem]
      c10proposal c10replacement (by simp [c10proposal])
      (by simp [c10proposal, c10replacement, c10newItem])
      (by simp [c10proposal]) (by simp [c10day1Item, c10oldItem])⟩

/-! ## Claim C4: pin preservation -/

/-- Every item already accumulated (in particular every pinned item placed
first) survives the generator's POI loop: the loop only returns or appends. -/
theorem mem_genLoop {x : Generator.GenItem} (dayNum weekday windowEnd : Nat) :
    ∀ (pois : List Generator.GenPOI) (items : List Generator.GenItem)
      (c : Nat), x ∈ items →
      x ∈ Generator.genLoop dayNum weekday windowEnd pois items c := by
  intro pois
  induction pois with
  | nil => intro items c hx; simpa [Generator.genLoop] using hx
  | cons poi rest ih =>
      intro items c hx
      simp only [Generator.genLoop]
      repeat' split
      all_goals first
        | exact hx
        | exact ih _ _ hx
        | exact ih _ _ (List.mem_append_left _ hx)

/-- A pinned item of day `d` (1 ≤ d ≤ numDays) of the prior itinerary is a
member of the day the generator produces for `d` under incremental
generation with `preservePinned`. -/
theorem pinned_mem_generateDays (pois : List Generator.GenPOI)
    (prefs : Generator.GenPrefs) (store : List Generator.GenItem)
    {p : Generator.GenItem} (hp : p ∈ store) (hpin : p.is_pinned = true)
    (hday1 : 1 ≤ p.day) (hdayN : p.day ≤ Generator.numDaysOf prefs) :
    ∃ d ∈ Generator.generateDays pois prefs (some store) true,
      p ∈ d.items := by
  unfold Generator.generateDays
  refine ⟨_, List.mem_map_of_mem _
    (List.mem_range.mpr (show p.day - 1 < Generator.numDaysOf prefs by
      omega)), ?_⟩
  show p ∈ Generator.generateDayItems (p.day - 1 + 1) _ _ _ _
    ((Generator.dayItemsOf store (p.day - 1 + 1)).filter
      (fun it => it.is_pinned))
  have hd : p.day - 1 + 1 = p.day := by omega
  rw [hd]
  unfold Generator.generateDayItems
  apply mem_genLoop
  refine List.mem_filter.mpr ⟨?_, hpin⟩
  unfold Generator.dayItemsOf
  rw [(List.mergeSort_perm _ _).mem_iff]
  exact List.mem_filter.mpr ⟨hp, by simp⟩

/-- Incremental generation with `preserve_pinned = true` re-inserts every
prior pinned item (on a day within the generated range) unchanged: same
id, day, start_time, end_time — the whole row is carried over as is. -/
theorem generateItinerary_incremental_preserves_pinned
    (store : List Generator.GenItem) (pois : List Generator.GenPOI)
    (prefs : Generator.GenPrefs) (req : Generator.GenRequest)
    (hinc : req.regenerate_incremental = true)
    (hpp : req.preserve_pinned = true)
    (hpois : pois ≠ [])
    (p : Generator.GenItem) (hp : p ∈ store) (hpin : p.is_pinned = true)
    (hday1 : 1 ≤ p.day) (hdayN : p.day ≤ Generator.numDaysOf prefs) :
    ∃ res, Generator.generateItinerary store pois prefs req = some res ∧
      p ∈ res.1 := by
  have hisEmpty : pois.isEmpty = false := by
    cases pois with
    | nil => exact absurd rfl hpois
    | cons a l => rfl
  refine ⟨(((Generator.generateDays pois prefs (some store) true).map
      (fun d => d.items)).flatten,
    Generator.generateDays pois prefs (some store) true), ?_, ?_⟩
  · simp [Generator.generateItinerary, hisEmpty, hinc, hpp]
  · obtain ⟨d, hd, hpd⟩ :=
      pinned_mem_generateDays pois prefs store hp hpin hday1 hdayN
    exact List.mem_flatten.mpr ⟨d.items, List.mem_map_of_mem _ hd, hpd⟩

/-- A pinned item of a prior itinerary: day 1, 09:00-09:30. -/
def c4pinned : Generator.GenItem :=
  { id := 99, day := 1, poi_id := none, start_time := 540, end_time := 570,
    duration_minutes := 30, is_pinned := true, ord := 0,
    hasLocation := false, cost := none, routeDur := none }

/-- The single item a fresh generate of POI A produces for the scenario
preferences. -/
def c4freshItem : Generator.GenItem :=
  { id := 0, day := 1, poi_id := some 1, start_time := 615, end_time := 735,
    duration_minutes := 120, is_pinned := false, ord := 0,
    hasLocation := true, cost := some 500, routeDur := none }

/-- C4, counterexample: a fresh (non-incremental) generate on a trip whose
items include a pinned item replaces the items table with only the newly
generated items — the pinned item is gone, even though the request asked
to preserve pinned items.  `generateItinerary` loads the prior itinerary
only when `regenerate_mode === 'incremental'`, and `saveItinerary` deletes
all items of the trip. -/
theorem c4_fresh_generate_drops_pinned :
    (Generator.generateItinerary [c4pinned] [poiA] scenarioPrefs
        { regenerate_incremental := false, preserve_pinned := true }).map
      (fun res => res.1) = some [c4freshItem] ∧
    c4pinned ∉ [c4freshItem] := by
  decide

/-- A proposal names an item id in none of its destructive or moving
change sets: not among `removed_items`, not an `old_item_id` of
`replaced_items`, not an `item_id` of `moved_items`.  The replan engine
guarantees this for every pinned item: each of its four strategies skips
`is_pinned` items (`if (!item || item.is_pinned) continue`,
replan-engine.service.ts lines 190, 262, 315, 374), so only non-pinned
item ids ever enter a proposal's change sets. -/
def proposalAvoidsId (prop : Replan.Proposal) (i : Nat) : Prop :=
  prop.changes.removed_items.contains i = false ∧
  (∀ r ∈ prop.changes.replaced_items, r.old_item_id ≠ i) ∧
  (∀ m ∈ prop.changes.moved_items, m.item_id ≠ i)

/-- `applyChanges` touches only items whose ids the proposal names: every
other item of the itinerary survives the apply with identical id, day,
start_time and end_time (the order renumbering rewrites only `"order"`). -/
theorem applyChanges_preserves_unreferenced (itin : List Replan.RItem)
    (prop : Replan.Proposal) (p : Replan.RItem) (hp : p ∈ itin)
    (havoid : proposalAvoidsId prop p.id) :
    ∃ y ∈ Replan.applyChanges itin prop,
      y.id = p.id ∧ y.day = p.day ∧ y.start_time = p.start_time ∧
        y.end_time = p.end_time := by
  obtain ⟨h0, h1, h2⟩ := havoid
  have hs1 : p ∈ itin.filter
      (fun it => !(prop.changes.removed_items.contains it.id)) :=
    List.mem_filter.mpr ⟨hp, by rw [h0]; rfl⟩
  have hs2 := mem_replaceFold itin prop.changes.replaced_items _ hs1 h1
  have hs3 := mem_moveFold prop.changes.moved_items _ hs2 h2
  have hs4 := List.mem_append_left
    (prop.changes.added_items.map Replan.addedRow) hs3
  exact renumberFold_preserves (Replan.affectedDaysList itin prop) _ _ hs4

/-- C4, amended: pinned items are preserved by incremental generation with
`preserve_pinned = true` and by replan apply, but not by fresh generation.
(1) Incremental generate: every prior pinned item on a day within the
generated range is present afterwards with identical day, start_time and
end_time (the row is re-inserted unchanged).  (2) Replan apply:
`applyChanges` deletes, replaces or moves only items whose ids the
proposal names, and day renumbering rewrites only `"order"`; the replan
engine never names a pinned item (every strategy skips `is_pinned` items),
so every pinned item is present after an engine-produced apply with
identical day, start_time and end_time.  A fresh (full) generate, however,
destroys pinned items — the counterexample above. -/
theorem c4_pinned_preserved_generate_and_replan :
    (∀ (store : List Generator.GenItem) (pois : List Generator.GenPOI)
        (prefs : Generator.GenPrefs) (req : Generator.GenRequest),
      req.regenerate_incremental = true → req.preserve_pinned = true →
      pois ≠ [] →
      ∀ p ∈ store, p.is_pinned = true → 1 ≤ p.day →
        p.day ≤ Generator.numDaysOf prefs →
        ∃ res, Generator.generateItinerary store pois prefs req =
            some res ∧ p ∈ res.1) ∧
    (∀ (itin : List Replan.RItem) (prop : Replan.Proposal),
      ∀ p ∈ itin, p.is_pinned = true → proposalAvoidsId prop p.id →
        ∃ y ∈ Replan.applyChanges itin prop,
          y.id = p.id ∧ y.day = p.day ∧ y.start_time = p.start_time ∧
            y.end_time = p.end_time) := by
  constructor
  · intro store pois prefs req hinc hpp hpois p hp hpin hday1 hdayN
    exact generateItinerary_incremental_preserves_pinned store pois prefs
      req hinc hpp hpois p hp hpin hday1 hdayN
  · intro itin prop p hp _ havoid
    exact applyChanges_preserves_unreferenced itin prop p hp havoid

/-- A pinned item on day 2 of an itinerary a replan will touch. -/
def c4replanPinned : Replan.RItem :=
  { id := 30, day := 2, poi_id := some 6, start_time := 700,
    end_time := 800, duration_minutes := 100, is_pinned := true,
    ord := 0, hasLocation := true }

/-- The unpinned day-1 item the proposal removes. -/
def c4replanOther : Replan.RItem :=
  { id := 31, day := 1, poi_id := some 7, start_time := 600,
    end_time := 660, duration_minutes := 60, is_pinned := false,
    ord := 0, hasLocation := true }

/-- A proposal that removes only the unpinned item — as the engine's
strategies produce, never naming the pinned one. -/
def c4replanProposal : Replan.Proposal :=
  { id := 40, trigger_id := none,
    changes :=
      { removed_items := [31], replaced_items := [],
        moved_items := [], added_items := [] } }

/-- C4, witness: the amended theorem applied (1) to the pinned item, POI A
and the scenario preferences under incremental generation, and (2) to a
two-item itinerary with a proposal that removes only the unpinned item. -/
theorem c4_pinned_preserved_generate_and_replan_witness :
    (([poiA] : List Generator.GenPOI) ≠ [] ∧
      c4pinned ∈ [c4pinned] ∧
      c4pinned.is_pinned = true ∧
      1 ≤ c4pinned.day ∧
      c4pinned.day ≤ Generator.numDaysOf scenarioPrefs ∧
      ∃ res, Generator.generateItinerary [c4pinned] [poiA] scenarioPrefs
          { regenerate_incremental := true, preserve_pinned := true } =
            some res ∧
        c4pinned ∈ res.1) ∧
    (c4replanPinned ∈ [c4replanOther, c4replanPinned] ∧
      c4replanPinned.is_pinned = true ∧
      proposalAvoidsId c4replanProposal c4replanPinned.id ∧
      ∃ y ∈ Replan.applyChanges [c4replanOther, c4replanPinned]
          c4replanProposal,
        y.id = c4replanPinned.id ∧ y.day = c4replanPinned.day ∧
          y.start_time = c4replanPinned.start_time ∧
          y.end_time = c4replanPinned.end_time) :=
  ⟨⟨by simp, by simp, rfl, by decide, by decide,
    c4_pinned_preserved_generate_and_replan.1 [c4pinned] [poiA]
      scenarioPrefs
      { regenerate_incremental := true, preserve_pinned := true }
      rfl rfl (by simp) c4pinned (by simp) rfl (by decide) (by decide)⟩,
   ⟨by simp, rfl,
    by simp [proposalAvoidsId, c4replanProposal, c4replanPinned],
    c4_pinned_preserved_generate_and_replan.2
      [c4replanOther, c4replanPinned] c4replanProposal c4replanPinned
      (by simp) rfl
      (by simp [proposalAvoidsId, c4replanProposal, c4replanPinned])⟩⟩

end GoBuddy
